import Mathlib

/-
Shallow embedding of the device-allocation reconciliation engine of
meshtastic-multinode-hub (src/main.py): identifier normalization
(generate_ble_variants), the probe wrapper (run_cli_command), candidate
validation (validate_candidate), the allocation planner and transactional
committer (auto_connect_loop), and the undo engine (undo_last_commit).

Modelling conventions:
- Python strings are Lean String values; the handful of string operations the
  code uses (strip, upper, lower, replace, startswith, the in operator) are
  defined below over List Char.  Case mapping is ASCII; every identifier the
  engine handles (COM port names, hex hardware addresses) is ASCII, where
  Python case mapping agrees with Char.toUpper and Char.toLower.
- SQLite REAL columns (snr, rssi, battery, uptime) are carried opaquely as
  Option Int: the engine never computes on them, it only copies them between
  the nodes table and snapshots.
- Sleep durations are recorded in tenths of a second (Nat) to avoid floats:
  0.5 s is 5, 1.0 s is 10, and so on.
-/

/-- Python default whitespace set used by str.strip. -/
def isPySpace (c : Char) : Bool :=
  c = ' ' || c = '\t' || c = '\n' || c = '\r' || c = '\x0b' || c = '\x0c'

/-- str.strip on a character list: drop whitespace from both ends. -/
def pyStripL (l : List Char) : List Char :=
  ((l.dropWhile isPySpace).reverse.dropWhile isPySpace).reverse

/-- Python str.strip. -/
def pyStrip (s : String) : String :=
  String.mk (pyStripL s.toList)

/-- Python str.upper, ASCII case mapping. -/
def pyUpper (s : String) : String :=
  String.mk (s.toList.map Char.toUpper)

/-- Python str.lower, ASCII case mapping. -/
def pyLower (s : String) : String :=
  String.mk (s.toList.map Char.toLower)

/-- Python membership test for a single character: c in s. -/
def pyContainsChar (s : String) (c : Char) : Bool :=
  s.toList.contains c

/-- Whether the first list begins with the second one. -/
def listStartsWith : List Char → List Char → Bool
  | _, [] => true
  | [], _ :: _ => false
  | a :: as, b :: bs => a == b && listStartsWith as bs

/-- Python substring test pat in hay (empty pattern is always found). -/
def containsSubL (pat : List Char) : List Char → Bool
  | [] => listStartsWith [] pat
  | c :: t => listStartsWith (c :: t) pat || containsSubL pat t

/-- Python pat in hay on strings. -/
def strContainsSub (hay pat : String) : Bool :=
  containsSubL pat.toList hay.toList

/-- device.upper().startswith(COM), the local-serial-endpoint test used
throughout main.py. -/
def comLike (s : String) : Bool :=
  listStartsWith (s.toList.map Char.toUpper) [ 'C', 'O', 'M']

/-- The list comprehension slices no_colon[i:i+2]: pairs of characters, with a
trailing singleton when the length is odd. -/
def chunk2 : List Char → List (List Char)
  | [] => []
  | [c] => [[c]]
  | c1 :: c2 :: rest => [c1, c2] :: chunk2 rest

/-- Python colon.join on chunks. -/
def joinColon : List (List Char) → List Char
  | [] => []
  | [x] => x
  | x :: y :: ys => x ++ ':' :: joinColon (y :: ys)

/-- The dedupe-preserving-order loop at the end of generate_ble_variants:
seen is the set accumulated so far. -/
def pyDedupe : List String → List String → List String
  | _, [] => []
  | seen, v :: rest =>
      if v ∈ seen then pyDedupe seen rest else v :: pyDedupe (v :: seen) rest

/-- generate_ble_variants from src/main.py lines 359 to 384: strip the
address, remove colon and hyphen separators, and emit the spelling variants
in order, deduplicated. -/
def generate_ble_variants (address : String) : List String :=
  let a := pyStrip address
  let no_colon := a.toList.filter (fun c => !(c = ':' || c = '-'))
  let variants : List String :=
    [ a
    , String.mk (no_colon.map Char.toUpper)
    , String.mk (no_colon.map Char.toLower)
    , String.mk ((joinColon (chunk2 no_colon)).map Char.toUpper)
    , "ble:" ++ a
    , "ble:" ++ String.mk no_colon ]
  pyDedupe [] variants

theorem pyDedupe_sound (l : List String) :
    ∀ seen : List String, (pyDedupe seen l).Nodup ∧ ∀ v ∈ pyDedupe seen l, v ∉ seen := by
  induction l with
  | nil => intro seen; simp [pyDedupe]
  | cons v rest ih =>
      intro seen
      by_cases hv : v ∈ seen
      · have h := ih seen
        constructor
        · simpa [pyDedupe, hv] using h.1
        · simpa [pyDedupe, hv] using h.2
      · have h := ih (v :: seen)
        constructor
        · simp only [pyDedupe, hv, if_false, List.nodup_cons]
          refine ⟨fun hc => ?_, h.1⟩
          have := h.2 v hc
          simp at this
        · intro w hw
          simp only [pyDedupe, hv, if_false, List.mem_cons] at hw
          rcases hw with rfl | hw
          · exact hv
          · have := h.2 w hw
            intro hws
            exact this (List.mem_cons_of_mem _ hws)

theorem pyDedupe_nodup (seen l : List String) : (pyDedupe seen l).Nodup :=
  (pyDedupe_sound l seen).1

theorem generate_ble_variants_head (address : String) :
    (generate_ble_variants address).head? = some (pyStrip address) := by
  simp [generate_ble_variants, pyDedupe]

/-- Claim C8, counterexample: for an address with surrounding whitespace the
first element of generate_ble_variants is the stripped address, not the
original string, because the function begins with address.strip(). -/
theorem C8_counterexample :
    (generate_ble_variants " a:b ").head? = some "a:b"
    ∧ (" a:b " : String) ≠ "a:b"
    ∧ pyContainsChar " a:b " ':' = true := by
  refine ⟨?_, by decide, by decide⟩
  exact generate_ble_variants_head " a:b "

/-- Claim C8, amended: for every address containing a colon or hyphen,
generate_ble_variants returns a list whose first element is the
whitespace-stripped original (hence the original itself whenever the address
carries no leading or trailing whitespace), and the list has no duplicates. -/
theorem C8_variants_head_strip (address : String)
    (h : pyContainsChar address ':' = true ∨ pyContainsChar address '-' = true) :
    (generate_ble_variants address).head? = some (pyStrip address)
    ∧ (generate_ble_variants address).Nodup :=
  ⟨generate_ble_variants_head address, pyDedupe_nodup [] _⟩

/-- Claim C8, witness for the amended theorem at the concrete address aa:bb. -/
theorem C8_variants_head_strip_witness :
    (generate_ble_variants "aa:bb").head? = some (pyStrip "aa:bb")
    ∧ (generate_ble_variants "aa:bb").Nodup :=
  C8_variants_head_strip "aa:bb" (Or.inl (by decide))

/-
Probe client: run_cli_command (src/main.py lines 193 to 251).  The external
process invocation subprocess.run is an oracle from the command list to an
outcome: it either produces captured stdout, raises FileNotFoundError when
the executable is absent, or raises some other exception.
-/

/-- Outcome of one subprocess.run invocation. -/
inductive RunRes
  | out (stdout : String)
  | raiseFNF (msg : String)
  | raiseOther (msg : String)

/-- The environment in which run_cli_command executes. -/
structure CliWorld where
  run : List String → RunRes

/-- The inner helper of run_cli_command: it catches every exception
(FileNotFoundError included, since that is a subclass of Exception) and
returns str(e); on success it returns result.stdout.strip(). -/
def runCmdList (w : CliWorld) (cmd : List String) : String :=
  match w.run cmd with
  | .out s => pyStrip s
  | .raiseFNF m => m
  | .raiseOther m => m

/-- The variant retry loop of run_cli_command: out is overwritten by each
attempt and the loop stops at the first non-empty output; the last value of
out is returned even when it is empty. -/
def cliVariantsLoop (w : CliWorld) (args : List String) : List String → String → String
  | [], out => out
  | v :: rest, _out =>
      let o := runCmdList w ("meshtastic" :: args ++ [ "--device", v])
      if o ≠ "" then o else cliVariantsLoop w args rest o

/-- run_cli_command from src/main.py.  Because runCmdList never raises, out
is always a string, so the function always returns it at line 227; the
FileNotFoundError handlers at lines 228 to 249, including the fallback to
python -m meshtastic and the sentinel string at line 247, are unreachable. -/
def run_cli_command (w : CliWorld) (args : List String) (device : Option String) : String :=
  let cmd := "meshtastic" :: args ++
    (match device with | some d => [ "--device", d] | none => [])
  let out := runCmdList w cmd
  match device with
  | some d =>
      if out = "" ∧ d ≠ "" ∧ pyContainsChar d ':' = true ∧ comLike d = false then
        cliVariantsLoop w args (generate_ble_variants d) out
      else out
  | none => out

/-- The message of the FileNotFoundError raised by subprocess.run when the
meshtastic executable is absent, as rendered by str(e). -/
def fnfMsg : String := "[Errno 2] No such file or directory: meshtastic"

/-- World in which the meshtastic binary is not installed: every invocation
raises FileNotFoundError. -/
def missingToolWorld : CliWorld := ⟨fun _ => .raiseFNF fnfMsg⟩

/-- World in which the tool exists and happens to print the same text that
str(FileNotFoundError) would produce. -/
def presentToolWorld : CliWorld := ⟨fun _ => .out fnfMsg⟩

/-- Claim C3 (code bug): when the probe binary is absent, run_cli_command
returns the stringified FileNotFoundError coming out of the inner helper, not
the dedicated sentinel string of line 247, and the result is byte-for-byte
identical to what an installed tool printing the same text would yield, so
the error is not distinguishable from ordinary tool output. -/
theorem C3_missing_binary_eval :
    run_cli_command missingToolWorld [ "--info"] none = fnfMsg
    ∧ run_cli_command missingToolWorld [ "--info"] none ≠ "meshtastic CLI not found"
    ∧ run_cli_command presentToolWorld [ "--info"] none
        = run_cli_command missingToolWorld [ "--info"] none := by
  refine ⟨rfl, by decide, ?_⟩
  rfl

/-
Roster store, transactional committer (auto_connect_loop with
auto_commit=True, src/main.py lines 689 to 801) and undo engine
(undo_last_commit, lines 804 to 834).

A nodes-table row is modelled by exactly the ten columns the commit snapshot
captures and the undo engine restores (SELECT node_id, long_name, role,
connection, last_heard, snr, rssi, battery, uptime, last_updated).  The
remaining columns (id, encryption, gps_lat, gps_lon, gps_alt, env_json) are
touched by no claim: they are neither snapshotted nor restored.

The best-effort telemetry capture inside the commit loop (store_telemetry via
a second sqlite3 connection) is modelled as a no-op on the database: the
committing connection already holds the write lock of its open transaction,
so the second connection cannot commit and raises database-is-locked, and
store_telemetry swallows every exception by design; the surrounding loop
additionally wraps the whole telemetry attempt in try/except pass.
-/

/-- One row of the nodes table, projected to the snapshot columns.  REAL
columns are carried opaquely as Option Int; NULL is none. -/
structure NodeRow where
  node_id : String
  long_name : Option String
  role : Option String
  connection : Option String
  last_heard : Option String
  snr : Option Int
  rssi : Option Int
  battery : Option Int
  uptime : Option Int
  last_updated : Option String
deriving DecidableEq

/-- The snapshot column of a commit_history row.  The committer always writes
json.dumps of a list of row dicts (jsonRows); an arbitrary pre-existing row
may hold text that json.loads rejects (invalid) or a falsy value (emptyText),
both of which undo_last_commit turns into the empty list. -/
inductive SnapshotCol
  | jsonRows (rows : List NodeRow)
  | invalid (text : String)
  | emptyText
deriving DecidableEq

/-- The snapshot decoding in undo_last_commit lines 818 to 821:
json.loads(snapshot_json) if snapshot_json else [], with the except branch
collapsing undecodable text to []. -/
def parseSnapshot : SnapshotCol → List NodeRow
  | .jsonRows rows => rows
  | .invalid _ => []
  | .emptyText => []

/-- One entry of the allocated list built at lines 739 to 742. ntype is the
dict key named type in the source. -/
structure AllocNode where
  id : String
  role : String
  ntype : String
  long_name : String
deriving DecidableEq

/-- The allocation proposal dict of auto_connect_loop. -/
structure Allocation where
  main : Option String
  routers : List String
  allocated : List AllocNode
deriving DecidableEq

/-- One row of commit_history.  The summary column stores
json.dumps of the allocation dict; since that serialization is injective the
column is modelled by the allocation value itself.  id is the AUTOINCREMENT
key; the table is append-only, so list order coincides with id order. -/
structure HistEntry where
  id : Nat
  when_ts : String
  summary : Allocation
  snapshot : SnapshotCol
deriving DecidableEq

/-- Rows of the append-only logs table written by commit and undo. -/
inductive LogEntry
  | autoConnectCommit (node : AllocNode)
  | undoLastCommit (histId : Nat)
deriving DecidableEq

/-- The persisted database state the claims touch: nodes roster,
commit_history, logs.  Lists are in rowid order. -/
structure Db where
  nodes : List NodeRow
  history : List HistEntry
  logs : List LogEntry
deriving DecidableEq

/-- SELECT ... ORDER BY id DESC LIMIT 1 on an append-only table: the last
element of the list. -/
def lastRow {α : Type} : List α → Option α
  | [] => none
  | [x] => some x
  | _ :: y :: ys => lastRow (y :: ys)

theorem lastRow_concat {α : Type} (l : List α) (a : α) : lastRow (l ++ [a]) = some a := by
  induction l with
  | nil => rfl
  | cons x xs ih =>
      cases xs with
      | nil => rfl
      | cons y ys => simpa [lastRow] using ih

/-- Result dict of undo_last_commit. -/
structure UndoResult where
  ok : Bool
  reason : String
deriving DecidableEq

/-- undo_last_commit from src/main.py lines 804 to 834: read the most recent
commit_history row; with none, fail; otherwise delete every nodes row,
re-insert the decoded snapshot rows in order, and append one log entry.  The
history row itself is not deleted. -/
def undo_last_commit (db : Db) : Db × UndoResult :=
  match lastRow db.history with
  | none => (db, ⟨false, "No commit history available"⟩)
  | some h =>
      ({ db with nodes := parseSnapshot h.snapshot
               , logs := db.logs ++ [LogEntry.undoLastCommit h.id] },
       ⟨true, "Restored commit id " ++ toString h.id ++ " from " ++ h.when_ts⟩)

/-
Allocation planner: lines 723 to 744 of auto_connect_loop.
-/

/-- The auto branch: main is available[0] when available is non-empty. -/
def autoPick : List String → Option String × List String
  | [] => (none, [])
  | a :: rest => (some a, rest)

/-- Building one allocated entry for loop variable d: the guard
(if not d: continue) skips falsy strings; role is ROUTER when d equals main
and ROUTER_LATE otherwise; type is com for COM-like ids, ble otherwise. -/
def allocEntry (main : Option String) (d : String) : Option AllocNode :=
  if d = "" then none
  else some ⟨d, (if main = some d then "ROUTER" else "ROUTER_LATE"),
             (if comLike d then "com" else "ble"), d⟩

/-- The allocated list built from the iteration sequence. -/
def mkAllocated (main : Option String) (iter : List String) : List AllocNode :=
  iter.filterMap (allocEntry main)

/-- Choice of main and routers (lines 727 to 733): in manual mode with a
truthy main_id, main is main_id unconditionally and routers are every
available entry other than it; otherwise main is the first available entry
and routers the rest. -/
def plannerPick (available : List String) (mode : String) (main_id : Option String) :
    Option String × List String :=
  match main_id with
  | some m => if mode = "manual" ∧ m ≠ "" then (some m, available.filter (fun d => d != m))
              else autoPick available
  | none => autoPick available

/-- The iteration sequence of line 739: [main] + routers when main is truthy,
else routers alone. -/
def plannerIter (main : Option String) (routers : List String) : List String :=
  match main with
  | some m => if m ≠ "" then m :: routers else routers
  | none => routers

/-- The planner output as one record. -/
def buildAllocation (available : List String) (mode : String) (main_id : Option String) :
    Allocation :=
  let mr := plannerPick available mode main_id
  ⟨mr.1, mr.2, mkAllocated mr.1 (plannerIter mr.1 mr.2)⟩

/-
Availability probing: lines 701 to 722.  get_meshtastic_info wraps
run_cli_command and parse_meshtastic_info behind a short-TTL cache keyed by
device, so within one pass it behaves as a pure function from the device
string to a parsed value; it is modelled as such an oracle.  A parsed value
is one of the three shapes parse_meshtastic_info can return.
-/

/-- Shape of parse_meshtastic_info output: praw when json.loads fails (the
dict raw: text); pinfo when the decoded dict has no truthy nodes, devices or
peers key (the dict info: data, with the truthiness of data recorded); pnodesVal
when such a key with a truthy value was found; pnodesEmptyVal when the
decoded JSON was not a dict (the dict nodes: followed by an empty map). -/
inductive ParsedInfo
  | praw (s : String)
  | pinfo (truthy : Bool)
  | pnodesVal
  | pnodesEmptyVal
deriving DecidableEq

/-- The availability test at line 711: parsed.get(nodes) or parsed.get(raw)
or parsed.get(info), as Python truthiness. -/
def parsedTruthy : ParsedInfo → Bool
  | .praw s => s ≠ ""
  | .pinfo t => t
  | .pnodesVal => true
  | .pnodesEmptyVal => false

/-- The variant fan-out applied to one candidate (lines 705 to 707, and again
in validate_candidate lines 583 to 585). -/
def devicesToTry (dev : String) : List String :=
  if pyContainsChar dev ':' = true ∧ comLike dev = false then generate_ble_variants dev
  else [dev]

/-- Whether one candidate is considered available: the loop over its variants
breaks at the first truthy parsed result. -/
def attemptOk (probe : String → ParsedInfo) (dev : String) : Bool :=
  (devicesToTry dev).any (fun d => parsedTruthy (probe d))

/-- One record of summary.attempts (the raw snippet field is read by no
claim and is omitted). -/
structure Attempt where
  device : String
  ok : Bool
deriving DecidableEq

def attemptsOf (probe : String → ParsedInfo) (cands : List String) : List Attempt :=
  cands.map (fun dev => ⟨dev, attemptOk probe dev⟩)

def availableOf (probe : String → ParsedInfo) (cands : List String) : List String :=
  ((attemptsOf probe cands).filter (fun a => a.ok)).map (fun a => a.device)

/-
The auto-commit transaction: lines 746 to 797.  Every statement runs on one
connection, inside one sqlite transaction committed by conn.commit() at line
790 and rolled back at line 793 on any exception inside the try block.  A
CommitFault says which statement, if any, raises.
-/

/-- Fault injection for the commit transaction: fnone is the normal run;
fsnapshot is an exception in the snapshot phase (the SELECT and the INSERT
INTO commit_history at lines 750 to 756, which sit before the try block);
fupsert k is an exception inside the try block while processing the k-th
allocated node; fcommit is an exception from the final conn.commit(). -/
inductive CommitFault
  | fnone
  | fsnapshot (msg : String)
  | fupsert (k : Nat) (msg : String)
  | fcommit (msg : String)

/-- A fresh nodes row inserted by the commit loop (line 768): only node_id,
long_name, role, connection, last_heard are supplied; last_updated takes the
sqlite column default CURRENT_TIMESTAMP; every other column is NULL. -/
def freshRow (a : AllocNode) (rowTs : String) : NodeRow :=
  ⟨a.id, some a.long_name, some a.role, some a.ntype, none,
   none, none, none, none, some rowTs⟩

/-- One upsert (lines 764 to 768): if any row with this node_id exists,
update role, long_name and connection on every such row; otherwise insert a
fresh row at the end. -/
def upsertNode (nodes : List NodeRow) (a : AllocNode) (rowTs : String) : List NodeRow :=
  if nodes.any (fun r => r.node_id == a.id) then
    nodes.map (fun r =>
      if r.node_id = a.id then
        { r with role := some a.role, long_name := some a.long_name,
                 connection := some a.ntype }
      else r)
  else nodes ++ [freshRow a rowTs]

/-- The commit loop over allocation.allocated, in order. -/
def upsertAll (nodes : List NodeRow) (as : List AllocNode) (rowTs : String) : List NodeRow :=
  as.foldl (fun ns a => upsertNode ns a rowTs) nodes

/-- The commit_history row written at line 756: the snapshot is the full
pre-mutation roster, serialized before any upsert runs. -/
def mkHist (db : Db) (alloc : Allocation) (when_ts : String) : HistEntry :=
  ⟨db.history.length + 1, when_ts, alloc, .jsonRows db.nodes⟩

/-- The database state after conn.commit() lands the whole transaction:
history row, upserts, and one log row per upsert. -/
def applyCommit (db : Db) (alloc : Allocation) (when_ts rowTs : String) : Db :=
  ⟨upsertAll db.nodes alloc.allocated rowTs,
   db.history ++ [mkHist db alloc when_ts],
   db.logs ++ alloc.allocated.map LogEntry.autoConnectCommit⟩

/-- The auto-commit block.  Outcome: the final database, and either the pair
(committed flag, commit_error) recorded in the summary, or an uncaught
exception (Except.error) when the fault hits the snapshot phase, which is
outside the try block.  A fault inside the try block rolls the transaction
back, leaving the database untouched, and stores the message under
commit_error without setting committed. -/
def commitExec (db : Db) (alloc : Allocation) (when_ts rowTs : String) :
    CommitFault → Db × Except String (Option Bool × Option String)
  | .fsnapshot e => (db, .error e)
  | .fupsert k e =>
      if k < alloc.allocated.length then (db, .ok (none, some e))
      else (applyCommit db alloc when_ts rowTs, .ok (some true, none))
  | .fcommit e => (db, .ok (none, some e))
  | .fnone => (applyCommit db alloc when_ts rowTs, .ok (some true, none))

/-- The summary dict returned by auto_connect_loop. -/
structure Summary where
  attempts : List Attempt
  allocations : Allocation
  committed : Option Bool
  commit_error : Option String
deriving DecidableEq

/-- auto_connect_loop from src/main.py lines 689 to 801: probe each
candidate, build the allocation proposal, and when auto_commit is set run the
commit transaction; Except.error models the exception escaping the function
when the snapshot phase fails. -/
def auto_connect_loop (probe : String → ParsedInfo) (cands : List String) (mode : String)
    (main_id : Option String) (auto_commit : Bool) (db : Db) (when_ts rowTs : String)
    (fault : CommitFault) : Db × Except String Summary :=
  let attempts := attemptsOf probe cands
  let alloc := buildAllocation (availableOf probe cands) mode main_id
  if auto_commit then
    match commitExec db alloc when_ts rowTs fault with
    | (db2, .error e) => (db2, .error e)
    | (db2, .ok (cflag, cerr)) => (db2, .ok ⟨attempts, alloc, cflag, cerr⟩)
  else
    (db, .ok ⟨attempts, alloc, some false, none⟩)

/-- Claim C1: for every roster state, a commit with autoCommit=true followed
immediately by undo restores the nodes table to exactly the field values it
held before the commit, for every snapshot column (node_id, long_name, role,
connection, last_heard, snr, rssi, battery, uptime, last_updated): the
snapshot is written from the pre-mutation roster and undo replaces the whole
table with it. -/
theorem C1_commit_then_undo_restores_roster (probe : String → ParsedInfo)
    (cands : List String) (mode : String) (main_id : Option String) (db : Db)
    (when_ts rowTs : String) :
    (undo_last_commit
        (auto_connect_loop probe cands mode main_id true db when_ts rowTs .fnone).1).1.nodes
      = db.nodes := by
  simp [auto_connect_loop, commitExec, applyCommit, undo_last_commit, mkHist,
        lastRow_concat, parseSnapshot]

/-- Claim C7: undo does not consume the commit_history row it restores from,
so two consecutive undo calls with no intervening commit leave the roster in
the same state after each call. -/
theorem C7_undo_twice_idempotent (db : Db) :
    (undo_last_commit (undo_last_commit db).1).1.nodes
      = (undo_last_commit db).1.nodes := by
  cases h : lastRow db.history with
  | none => simp [undo_last_commit, h]
  | some e => simp [undo_last_commit, h]

/-- Claim C9: when the most recent commit_history row exists but its snapshot
column is not valid JSON, undo_last_commit deletes every nodes row, re-inserts
nothing (the decode failure collapses the snapshot to the empty list) and
still reports ok=true. -/
theorem C9_corrupt_snapshot_empties_roster (db : Db) (h : HistEntry) (s : String)
    (hl : lastRow db.history = some h) (hs : h.snapshot = SnapshotCol.invalid s) :
    (undo_last_commit db).1.nodes = [] ∧ (undo_last_commit db).2.ok = true := by
  simp [undo_last_commit, hl, hs, parseSnapshot]

/-- Claim C9, witness: a concrete database whose only history row carries
undecodable snapshot text. -/
def corruptDb : Db :=
  ⟨[⟨ "seed1", some "Seed Node", some "CLIENT", some "manual",
      none, none, none, none, none, none⟩],
   [⟨1, "2024-01-01T00:00:00", ⟨none, [], []⟩, SnapshotCol.invalid "not json"⟩],
   []⟩

theorem C9_corrupt_snapshot_empties_roster_witness :
    (undo_last_commit corruptDb).1.nodes = [] ∧ (undo_last_commit corruptDb).2.ok = true :=
  C9_corrupt_snapshot_empties_roster corruptDb
    ⟨1, "2024-01-01T00:00:00", ⟨none, [], []⟩, SnapshotCol.invalid "not json"⟩
    "not json" rfl rfl

/-- Probe oracle whose every answer is a truthy nodes payload. -/
def probeAllOk : String → ParsedInfo := fun _ => ParsedInfo.pnodesVal

def emptyDb : Db := ⟨[], [], []⟩

/-- Claim C4, counterexample: the snapshot phase (the SELECT and the INSERT
INTO commit_history) sits before the try block of auto_connect_loop, so a
storage failure there propagates as an uncaught exception: no summary is
produced at all, hence no outcome reporting a commit error, even though the
roster is indeed left unchanged. -/
theorem C4_counterexample :
    (auto_connect_loop probeAllOk [ "COM7"] "auto" none true emptyDb "t" "u"
        (.fsnapshot "disk I/O error")).2 = Except.error "disk I/O error"
    ∧ (auto_connect_loop probeAllOk [ "COM7"] "auto" none true emptyDb "t" "u"
        (.fsnapshot "disk I/O error")).1 = emptyDb :=
  ⟨rfl, rfl⟩

/-- Claim C4, amended: a failure inside the try block (any per-device upsert,
or the final transaction commit) rolls the whole transaction back, leaving
the database exactly as before the commit began, and the summary reports the
error under commit_error; a failure in the snapshot phase also leaves the
database unchanged but escapes as an exception instead of being reported in
the outcome. -/
theorem C4_failure_rollback (db : Db) (alloc : Allocation) (when_ts rowTs e : String) :
    (∀ k, k < alloc.allocated.length →
        commitExec db alloc when_ts rowTs (.fupsert k e) = (db, .ok (none, some e)))
    ∧ commitExec db alloc when_ts rowTs (.fcommit e) = (db, .ok (none, some e))
    ∧ commitExec db alloc when_ts rowTs (.fsnapshot e) = (db, .error e) := by
  refine ⟨fun k hk => ?_, rfl, rfl⟩
  simp [commitExec, hk]

def alloc4 : Allocation := ⟨some "COM7", [], [⟨ "COM7", "ROUTER", "com", "COM7"⟩]⟩

/-- Claim C4, witness for the amended theorem: a failing upsert on a
one-entry allocation leaves the database untouched and reports the error. -/
theorem C4_failure_rollback_witness :
    commitExec emptyDb alloc4 "t" "u" (.fupsert 0 "boom") = (emptyDb, .ok (none, some "boom"))
    ∧ commitExec emptyDb alloc4 "t" "u" (.fsnapshot "boom") = (emptyDb, .error "boom") :=
  ⟨(C4_failure_rollback emptyDb alloc4 "t" "u" "boom").1 0 (by decide),
   (C4_failure_rollback emptyDb alloc4 "t" "u" "boom").2.2⟩

/-- Claim C6: in manual mode with a truthy manualPrimaryId, the planner
returns that identifier as main unconditionally, whether or not it occurs in
the available list, and routers are exactly the available entries different
from it. -/
theorem C6_manual_primary (available : List String) (m : String) (hm : m ≠ "") :
    (buildAllocation available "manual" (some m)).main = some m
    ∧ (buildAllocation available "manual" (some m)).routers
        = available.filter (fun d => d != m) := by
  simp [buildAllocation, plannerPick, hm]

/-- Claim C6, witness: manual primary Z absent from available [A, B] yields
main Z and routers [A, B]. -/
theorem C6_manual_primary_witness :
    (buildAllocation [ "A", "B"] "manual" (some "Z")).main = some "Z"
    ∧ (buildAllocation [ "A", "B"] "manual" (some "Z")).routers = [ "A", "B"] :=
  C6_manual_primary [ "A", "B"] "Z" (by decide)

/-- The device with identifier x is present in the roster and every row
carrying that identifier has the given role. -/
def rosterRole (ns : List NodeRow) (x R : String) : Prop :=
  (∃ r ∈ ns, r.node_id = x) ∧ ∀ r ∈ ns, r.node_id = x → r.role = some R

theorem upsertNode_sets (ns : List NodeRow) (a : AllocNode) (ts x : String)
    (hx : a.id = x) : rosterRole (upsertNode ns a ts) x a.role := by
  unfold upsertNode
  by_cases hex : ns.any (fun r => r.node_id == a.id)
  · rw [if_pos hex]
    constructor
    · rcases List.any_eq_true.mp hex with ⟨r, hr, hrid⟩
      have hrid2 : r.node_id = a.id := by simpa using hrid
      refine ⟨{ r with role := some a.role, long_name := some a.long_name,
                       connection := some a.ntype }, ?_, ?_⟩
      · exact List.mem_map.mpr ⟨r, hr, by rw [if_pos hrid2]⟩
      · simpa using hrid2.trans hx
    · intro r2 hr2 hid2
      rcases List.mem_map.mp hr2 with ⟨r, hr, rfl⟩
      by_cases hri : r.node_id = a.id
      · simp [hri]
      · rw [if_neg hri] at hid2 ⊢
        exact absurd (hid2.trans hx.symm) hri
  · rw [if_neg hex]
    have hno : ∀ r ∈ ns, r.node_id ≠ a.id := by
      intro r hr
      by_contra hc
      exact hex (List.any_eq_true.mpr ⟨r, hr, by simpa using hc⟩)
    constructor
    · exact ⟨freshRow a ts, by simp, by simpa [freshRow] using hx⟩
    · intro r hr hid
      rcases List.mem_append.mp hr with hrl | hrr
      · exact absurd (hid.trans hx.symm) (hno r hrl)
      · have : r = freshRow a ts := by simpa using hrr
        simp [this, freshRow]

theorem upsertNode_keeps (ns : List NodeRow) (a : AllocNode) (ts x R : String)
    (hne : a.id ≠ x) (h : rosterRole ns x R) : rosterRole (upsertNode ns a ts) x R := by
  unfold upsertNode
  by_cases hex : ns.any (fun r => r.node_id == a.id)
  · rw [if_pos hex]
    constructor
    · rcases h.1 with ⟨r, hr, hrx⟩
      have hri : ¬ r.node_id = a.id := by rw [hrx]; exact fun hc => hne hc.symm
      exact ⟨r, List.mem_map.mpr ⟨r, hr, by rw [if_neg hri]⟩, hrx⟩
    · intro r2 hr2 hid2
      rcases List.mem_map.mp hr2 with ⟨r, hr, rfl⟩
      by_cases hri : r.node_id = a.id
      · rw [if_pos hri] at hid2 ⊢
        exact absurd (hri.symm.trans hid2) hne
      · rw [if_neg hri] at hid2 ⊢
        exact h.2 r hr hid2
  · rw [if_neg hex]
    constructor
    · rcases h.1 with ⟨r, hr, hrx⟩
      exact ⟨r, List.mem_append.mpr (Or.inl hr), hrx⟩
    · intro r hr hid
      rcases List.mem_append.mp hr with hrl | hrr
      · exact h.2 r hrl hid
      · have hf : r = freshRow a ts := by simpa using hrr
        rw [hf] at hid
        exact absurd hid hne

theorem upsertAll_cons (ns : List NodeRow) (a : AllocNode) (rest : List AllocNode)
    (ts : String) : upsertAll ns (a :: rest) ts = upsertAll (upsertNode ns a ts) rest ts := rfl

theorem upsertAll_keeps (x R ts : String) :
    ∀ (as : List AllocNode) (ns : List NodeRow), (∀ a ∈ as, a.id ≠ x) →
      rosterRole ns x R → rosterRole (upsertAll ns as ts) x R := by
  intro as
  induction as with
  | nil => intro ns _ h; exact h
  | cons a rest ih =>
      intro ns hall h
      rw [upsertAll_cons]
      exact ih _ (fun a2 h2 => hall a2 (List.mem_cons_of_mem _ h2))
        (upsertNode_keeps ns a ts x R (hall a (List.mem_cons_self _ _)) h)

theorem upsertAll_sets (x R ts : String) :
    ∀ (as : List AllocNode) (ns : List NodeRow),
      (∀ a ∈ as, a.id = x → a.role = R) → (∃ a ∈ as, a.id = x) →
      rosterRole (upsertAll ns as ts) x R := by
  intro as
  induction as with
  | nil => intro ns _ hex; simp at hex
  | cons a rest ih =>
      intro ns hall hex
      rw [upsertAll_cons]
      by_cases hax : a.id = x
      · have hR : a.role = R := hall a (List.mem_cons_self _ _) hax
        have h1 : rosterRole (upsertNode ns a ts) x R := by
          rw [← hR]; exact upsertNode_sets ns a ts x hax
        by_cases hrest : ∃ a2 ∈ rest, a2.id = x
        · exact ih _ (fun a2 h2 => hall a2 (List.mem_cons_of_mem _ h2)) hrest
        · push_neg at hrest
          exact upsertAll_keeps x R ts rest _ hrest h1
      · rcases hex with ⟨a2, ha2, hax2⟩
        rcases List.mem_cons.mp ha2 with rfl | ha2r
        · exact absurd hax2 hax
        · exact ih _ (fun a3 h3 => hall a3 (List.mem_cons_of_mem _ h3)) ⟨a2, ha2r, hax2⟩

theorem mkAllocated_spec (main : Option String) (iter : List String) :
    ∀ a ∈ mkAllocated main iter,
      a.id ≠ "" ∧ a.role = (if main = some a.id then "ROUTER" else "ROUTER_LATE") := by
  intro a ha
  rcases List.mem_filterMap.mp ha with ⟨d, hd, hfd⟩
  unfold allocEntry at hfd
  by_cases hd0 : d = ""
  · rw [if_pos hd0] at hfd; cases hfd
  · rw [if_neg hd0] at hfd
    cases Option.some.inj hfd
    exact ⟨hd0, rfl⟩

theorem mkAllocated_mem (main : Option String) (iter : List String) (d : String)
    (hd : d ∈ iter) (hd0 : d ≠ "") : ∃ a ∈ mkAllocated main iter, a.id = d := by
  refine ⟨⟨d, (if main = some d then "ROUTER" else "ROUTER_LATE"),
           (if comLike d then "com" else "ble"), d⟩,
          List.mem_filterMap.mpr ⟨d, hd, ?_⟩, rfl⟩
  unfold allocEntry
  rw [if_neg hd0]

theorem plannerIter_mem_main (main : Option String) (routers : List String) (m : String)
    (hmain : main = some m) (hm : m ≠ "") : m ∈ plannerIter main routers := by
  subst hmain
  simp [plannerIter, hm]

theorem plannerIter_mem_routers (main : Option String) (routers : List String) (d : String)
    (hd : d ∈ routers) : d ∈ plannerIter main routers := by
  cases main with
  | none => simpa [plannerIter] using hd
  | some m =>
      by_cases hm : m = ""
      · simpa [plannerIter, hm] using hd
      · have he : plannerIter (some m) routers = m :: routers := by simp [plannerIter, hm]
        rw [he]
        exact List.mem_cons_of_mem _ hd

theorem buildAllocation_allocated_spec (available : List String) (mode : String)
    (mid : Option String) :
    ∀ a ∈ (buildAllocation available mode mid).allocated,
      a.id ≠ "" ∧ a.role
        = (if (buildAllocation available mode mid).main = some a.id
           then "ROUTER" else "ROUTER_LATE") := by
  intro a ha
  exact mkAllocated_spec _ _ a ha

theorem buildAllocation_main_mem (available : List String) (mode : String)
    (mid : Option String) (m : String)
    (hmain : (buildAllocation available mode mid).main = some m) (hm : m ≠ "") :
    ∃ a ∈ (buildAllocation available mode mid).allocated, a.id = m :=
  mkAllocated_mem _ _ m (plannerIter_mem_main _ _ m hmain hm) hm

theorem buildAllocation_router_mem (available : List String) (mode : String)
    (mid : Option String) (d : String)
    (hd : d ∈ (buildAllocation available mode mid).routers) (hd0 : d ≠ "") :
    ∃ a ∈ (buildAllocation available mode mid).allocated, a.id = d :=
  mkAllocated_mem _ _ d (plannerIter_mem_routers _ _ d hd) hd0

/-- Claim C2, amended: in a successful commit with autoCommit=true, the
device chosen as main is upserted into the roster with role value ROUTER and
every router entry distinct from it with role value ROUTER_LATE (not PRIMARY
and SECONDARY as the claim states). -/
theorem C2_roles_router (probe : String → ParsedInfo) (cands : List String) (mode : String)
    (main_id : Option String) (db : Db) (when_ts rowTs : String) (s : Summary) (m : String)
    (hres : (auto_connect_loop probe cands mode main_id true db when_ts rowTs .fnone).2
              = Except.ok s)
    (hmain : s.allocations.main = some m) (hm : m ≠ "") :
    rosterRole
      (auto_connect_loop probe cands mode main_id true db when_ts rowTs .fnone).1.nodes
      m "ROUTER"
    ∧ ∀ d ∈ s.allocations.routers, d ≠ m → d ≠ "" →
        rosterRole
          (auto_connect_loop probe cands mode main_id true db when_ts rowTs .fnone).1.nodes
          d "ROUTER_LATE" := by
  have h2 : (auto_connect_loop probe cands mode main_id true db when_ts rowTs .fnone).2
      = Except.ok (⟨attemptsOf probe cands,
                    buildAllocation (availableOf probe cands) mode main_id,
                    some true, none⟩ : Summary) := rfl
  have hs : s = ⟨attemptsOf probe cands,
                 buildAllocation (availableOf probe cands) mode main_id,
                 some true, none⟩ := by
    have h3 := h2.symm.trans hres
    injection h3 with h4
    exact h4.symm
  have hnodes : (auto_connect_loop probe cands mode main_id true db when_ts rowTs .fnone).1.nodes
      = upsertAll db.nodes
          (buildAllocation (availableOf probe cands) mode main_id).allocated rowTs := rfl
  subst hs
  have hmain2 : (buildAllocation (availableOf probe cands) mode main_id).main = some m := hmain
  constructor
  · rw [hnodes]
    refine upsertAll_sets m "ROUTER" rowTs _ db.nodes ?_ ?_
    · intro a ha hid
      have hspec := (buildAllocation_allocated_spec _ _ _ a ha).2
      rw [hid, hmain2] at hspec
      simpa using hspec
    · exact buildAllocation_main_mem _ _ _ m hmain2 hm
  · intro d hd hdm hd0
    rw [hnodes]
    refine upsertAll_sets d "ROUTER_LATE" rowTs _ db.nodes ?_ ?_
    · intro a ha hid
      have hspec := (buildAllocation_allocated_spec _ _ _ a ha).2
      rw [hid, hmain2] at hspec
      have hne : ¬ (some m : Option String) = some d := by
        intro hc
        exact hdm (Option.some.inj hc).symm
      rw [if_neg hne] at hspec
      exact hspec
    · exact buildAllocation_router_mem _ _ _ d hd hd0

/-- Database seeded with one manually added CLIENT node, mirroring the
end-to-end scenario of the spec. -/
def seedDb : Db :=
  ⟨[⟨ "seed1", some "Seed Node", some "CLIENT", some "manual",
      none, none, none, none, none, none⟩], [], []⟩

/-- Claim C2, counterexample: committing the spec scenario (candidates
A1:B2:C3:D4:E5:F6 and COM5, both answering) stores role ROUTER on the
primary and ROUTER_LATE on the secondary, not PRIMARY and SECONDARY, while
leaving seed1 untouched. -/
theorem C2_counterexample :
    ((auto_connect_loop probeAllOk [ "A1:B2:C3:D4:E5:F6", "COM5"] "auto" none true seedDb
        "t" "u" .fnone).1.nodes.map (fun r => (r.node_id, r.role)))
      = [( "seed1", some "CLIENT"), ( "A1:B2:C3:D4:E5:F6", some "ROUTER"),
         ( "COM5", some "ROUTER_LATE")]
    ∧ (some "ROUTER" : Option String) ≠ some "PRIMARY" :=
  ⟨by decide, by decide⟩

/-- The summary produced by committing candidates A and B against the empty
database with every probe answering. -/
def summaryAB : Summary :=
  ⟨[⟨ "A", true⟩, ⟨ "B", true⟩],
   ⟨some "A", [ "B"],
    [⟨ "A", "ROUTER", "ble", "A"⟩, ⟨ "B", "ROUTER_LATE", "ble", "B"⟩]⟩,
   some true, none⟩

/-- Claim C2, witness for the amended theorem on the concrete commit of
candidates A and B. -/
theorem C2_roles_router_witness :
    rosterRole
      (auto_connect_loop probeAllOk [ "A", "B"] "auto" none true emptyDb "t" "u" .fnone).1.nodes
      "A" "ROUTER"
    ∧ ∀ d ∈ summaryAB.allocations.routers, d ≠ "A" → d ≠ "" →
        rosterRole
          (auto_connect_loop probeAllOk [ "A", "B"] "auto" none true emptyDb "t" "u"
            .fnone).1.nodes
          d "ROUTER_LATE" :=
  C2_roles_router probeAllOk [ "A", "B"] "auto" none emptyDb "t" "u" summaryAB "A"
    rfl rfl (by decide)

/-
Validator: validate_candidate (src/main.py lines 528 to 616).  Its
environment is an oracle world: pyserial says whether import serial
succeeds; opens is the sequence of serial open attempts (none is success,
some msg is the raised exception); cli is the sequence of run_cli_command
results, one per call, each carrying the returned text together with how
json.loads sees it.  Sleeps are recorded in tenths of a second.  The parsed
dict threaded through the function is read by no claim and is projected to
the raw string it carries.
-/

/-- How json.loads treats one output text: notJson when decoding fails;
jsonNoNode when it decodes but is not a dict carrying a node or nodes key
(falling through the heuristic at line 599 with no return); jsonNode when the
key is present, with dump the value of json.dumps(parsed_json). -/
inductive CliShape
  | notJson
  | jsonNoNode
  | jsonNode (dump : String)
deriving DecidableEq

/-- One run_cli_command result as the validator sees it. -/
structure CliRes where
  text : String
  shape : CliShape
deriving DecidableEq

/-- The validator environment. -/
structure VWorld where
  pyserial : Bool
  opens : Nat → Option String
  cli : Nat → CliRes

/-- The result dict of validate_candidate; the early COM-check returns carry
no raw key (none), the later ones carry the raw string. -/
structure VResult where
  ok : Bool
  reason : String
  raw : Option String
deriving DecidableEq

/-- Observable side effects of one validate_candidate run: how many serial
open attempts were made, which sleeps were performed (tenths of a second),
and how many run_cli_command calls happened. -/
structure VTrace where
  openAttempts : Nat
  sleepsTenths : List Nat
  cliCalls : Nat
deriving DecidableEq

/-- Outcome of try_info_with_retries. -/
structure TryOut where
  ok : Bool
  last : CliRes
  nextIdx : Nat
  sleeps : List Nat
deriving DecidableEq

/-- The retry loop of try_info_with_retries (lines 552 to 560): up to the
given number of attempts, returning at the first output with non-empty strip,
otherwise sleeping delay * (1 + i) and keeping the last raw output. -/
def tryInfoGo (w : VWorld) (delayT : Nat) : Nat → Nat → Nat → CliRes → TryOut
  | 0, idx, _i, last => ⟨false, last, idx, []⟩
  | n + 1, idx, i, _last =>
      let r := w.cli idx
      if pyStrip r.text = "" then
        let rest := tryInfoGo w delayT n (idx + 1) (i + 1) r
        ⟨rest.ok, rest.last, rest.nextIdx, delayT * (1 + i) :: rest.sleeps⟩
      else ⟨true, r, idx + 1, []⟩

/-- try_info_with_retries with its default attempts=3 and delay=1.0 as used
at line 590. -/
def tryInfo (w : VWorld) (idx : Nat) : TryOut :=
  tryInfoGo w 10 3 idx 0 ⟨ "", .notJson⟩

/-- Outcome of the loop over device variants. -/
structure VarOut where
  res : Option VResult
  lastRaw : String
  nextIdx : Nat
  sleeps : List Nat
deriving DecidableEq

/-- Normalisation of the expected argument at each if expected: check
(Python truthiness: an empty string behaves like no expected token). -/
def normExpected : Option String → Option String
  | none => none
  | some e => if e = "" then none else some e

/-- The loop over devices_to_try (lines 589 to 613): per variant, run
try_info_with_retries; on non-empty output, return on the jsonNode and
notJson shapes (applying the case-insensitive expected-token check when an
expected token is present), and fall through to the next variant on the
jsonNoNode shape with no return; on empty output fall through as well. -/
def variantLoop (w : VWorld) (expected : Option String) : List String → Nat → String → VarOut
  | [], idx, lastRaw => ⟨none, lastRaw, idx, []⟩
  | _d :: rest, idx, _lastRaw =>
      let t := tryInfo w idx
      if t.ok then
        match t.last.shape with
        | .jsonNode dump =>
            match expected with
            | some e =>
                if strContainsSub (pyLower dump) (pyLower e) then
                  ⟨some ⟨true, "Found expected node in JSON", some t.last.text⟩,
                   t.last.text, t.nextIdx, t.sleeps⟩
                else
                  ⟨some ⟨false, "JSON returned but expected identifier not found",
                         some t.last.text⟩, t.last.text, t.nextIdx, t.sleeps⟩
            | none =>
                ⟨some ⟨true, "Found node info", some t.last.text⟩,
                 t.last.text, t.nextIdx, t.sleeps⟩
        | .jsonNoNode =>
            let v := variantLoop w expected rest t.nextIdx t.last.text
            ⟨v.res, v.lastRaw, v.nextIdx, t.sleeps ++ v.sleeps⟩
        | .notJson =>
            match expected with
            | some e =>
                if strContainsSub (pyLower t.last.text) (pyLower e) = false then
                  ⟨some ⟨false, "Non-JSON output present but expected identifier not found",
                         some t.last.text⟩, t.last.text, t.nextIdx, t.sleeps⟩
                else
                  ⟨some ⟨true, "Non-JSON output present", some t.last.text⟩,
                   t.last.text, t.nextIdx, t.sleeps⟩
            | none =>
                ⟨some ⟨true, "Non-JSON output present", some t.last.text⟩,
                 t.last.text, t.nextIdx, t.sleeps⟩
      else
        let v := variantLoop w expected rest t.nextIdx t.last.text
        ⟨v.res, v.lastRaw, v.nextIdx, t.sleeps ++ v.sleeps⟩

/-- Outcome of the second COM block retry loop (lines 569 to 578): up to
3 attempts of serial.Serial(device); on each failure sleep 0.5 + attempt * 0.5
seconds and remember the exception. -/
structure SerOut where
  opened : Bool
  lastErr : String
  consumed : Nat
  sleeps : List Nat
deriving DecidableEq

def serialRetryGo (w : VWorld) (base : Nat) : Nat → Nat → String → SerOut
  | 0, _a, lastErr => ⟨false, lastErr, 0, []⟩
  | n + 1, a, lastErr =>
      match w.opens (base + a) with
      | none => ⟨true, lastErr, 1, []⟩
      | some e =>
          let r := serialRetryGo w base n (a + 1) e
          ⟨r.opened, r.lastErr, r.consumed + 1, (5 + a * 5) :: r.sleeps⟩

/-- The fall-through completion at line 616: when no variant returned, the
result is the failure dict with the last raw output. -/
def finishV (v : VarOut) : VResult :=
  v.res.getD ⟨false, "No meshtastic node info returned after retries", some v.lastRaw⟩

/-- validate_candidate from src/main.py lines 528 to 616.  For a COM-like
device the first block (lines 534 to 548) performs one single open/close
attempt and returns immediately on its failure; only when it succeeds does
the second block (lines 563 to 580) run the 3-attempt retry loop; then the
variant fan-out and probe retries run.  (The unreachable code after the
return at line 616 is not modelled; nor is the second import check of the
retry block, which cannot fail once the first block imported pyserial.) -/
def validate_candidate (w : VWorld) (device : String) (expected0 : Option String) :
    VResult × VTrace :=
  let expected := normExpected expected0
  if comLike device then
    if w.pyserial = false then
      (⟨false, "pyserial not available", none⟩, ⟨0, [], 0⟩)
    else
      match w.opens 0 with
      | some e => (⟨false, "Could not open COM port: " ++ e, none⟩, ⟨1, [], 0⟩)
      | none =>
          let ser := serialRetryGo w 1 3 0 ""
          if ser.opened = false then
            (⟨false, "Could not open serial port after retries: " ++ ser.lastErr, some ""⟩,
             ⟨1 + ser.consumed, ser.sleeps, 0⟩)
          else
            let v := variantLoop w expected (devicesToTry device) 0 ""
            (finishV v, ⟨1 + ser.consumed, ser.sleeps ++ v.sleeps, v.nextIdx⟩)
  else
    let v := variantLoop w expected (devicesToTry device) 0 ""
    (finishV v, ⟨0, v.sleeps, v.nextIdx⟩)

/-- World in which every serial open raises and the probe returns nothing. -/
def w5fail : VWorld := ⟨true, fun _ => some "busy", fun _ => ⟨ "", .notJson⟩⟩

/-- Claim C5, counterexample: for COM5 with a failing port, validate_candidate
returns ok=false after exactly one serial open attempt, because the first COM
block (lines 536 to 548) returns on the very first open failure, before the
retry loop is ever reached. -/
theorem C5_counterexample :
    (validate_candidate w5fail "COM5" none).1
        = ⟨false, "Could not open COM port: busy", none⟩
    ∧ (validate_candidate w5fail "COM5" none).2.openAttempts = 1 :=
  ⟨rfl, rfl⟩

/-- Claim C5, amended: for a COM-like identifier with pyserial importable,
validate_candidate first makes a single open/close attempt and returns
ok=false with reason Could not open COM port on its failure, after exactly
one attempt and no sleeps; only when that first attempt succeeds does it run
the retry loop of up to 3 further attempts with linearly increasing delays
0.5 s, 1.0 s, 1.5 s, returning reason Could not open serial port after
retries when all of them fail. -/
theorem C5_serial_single_then_retries (w : VWorld) (device : String) (e1 e2 e3 e4 : String)
    (hcom : comLike device = true) (hser : w.pyserial = true) :
    (w.opens 0 = some e1 →
        validate_candidate w device none
          = (⟨false, "Could not open COM port: " ++ e1, none⟩, ⟨1, [], 0⟩))
    ∧ (w.opens 0 = none → w.opens 1 = some e2 → w.opens 2 = some e3 → w.opens 3 = some e4 →
        validate_candidate w device none
          = (⟨false, "Could not open serial port after retries: " ++ e4, some ""⟩,
             ⟨4, [5, 10, 15], 0⟩)) := by
  constructor
  · intro h0
    simp [validate_candidate, hcom, hser, h0]
  · intro h0 h1 h2 h3
    simp [validate_candidate, hcom, hser, h0, serialRetryGo, h1, h2, h3]

/-- World whose serial opens succeed once and then fail with distinct
messages. -/
def w5retry : VWorld :=
  ⟨true,
   fun n => match n with | 0 => none | 1 => some "ea" | 2 => some "eb" | _ => some "ec",
   fun _ => ⟨ "", .notJson⟩⟩

/-- Claim C5, witness for the amended theorem: both branches evaluated on
concrete worlds. -/
theorem C5_serial_single_then_retries_witness :
    validate_candidate w5fail "COM5" none
        = (⟨false, "Could not open COM port: busy", none⟩, ⟨1, [], 0⟩)
    ∧ validate_candidate w5retry "COM5" none
        = (⟨false, "Could not open serial port after retries: ec", some ""⟩,
           ⟨4, [5, 10, 15], 0⟩) :=
  ⟨(C5_serial_single_then_retries w5fail "COM5" "busy" "x" "x" "x" rfl rfl).1 rfl,
   (C5_serial_single_then_retries w5retry "COM5" "x" "ea" "eb" "ec" rfl rfl).2
     rfl rfl rfl rfl⟩

theorem variantLoop_allNoNode (w : VWorld) (expected : Option String)
    (hcli : ∀ n, pyStrip (w.cli n).text ≠ "" ∧ (w.cli n).shape = CliShape.jsonNoNode) :
    ∀ (ds : List String) (idx : Nat) (lastRaw : String),
      (variantLoop w expected ds idx lastRaw).res = none := by
  intro ds
  induction ds with
  | nil => intro idx lr; rfl
  | cons d rest ih =>
      intro idx lr
      have h1 := (hcli idx).1
      have h2 := (hcli idx).2
      have ht : tryInfo w idx = ⟨true, w.cli idx, idx + 1, []⟩ := by
        simp [tryInfo, tryInfoGo, h1]
      simp only [variantLoop, ht, h2]
      exact ih (idx + 1) (w.cli idx).text

/-- Claim C10: when every probe answer has non-empty output that decodes as
JSON without a node or nodes top-level key, validate_candidate declares no
success and performs no expected-token check on any variant, and finishes
with ok=false and the reason observed at line 616, despite having received
non-empty structured output throughout.  (For a COM-like device the serial
pre-checks are assumed to pass so that the probe loop is reached.) -/
theorem C10_no_node_key (w : VWorld) (device : String) (expected : Option String)
    (hser : comLike device = true → w.pyserial = true ∧ w.opens 0 = none ∧ w.opens 1 = none)
    (hcli : ∀ n, pyStrip (w.cli n).text ≠ "" ∧ (w.cli n).shape = CliShape.jsonNoNode) :
    (validate_candidate w device expected).1.ok = false
    ∧ (validate_candidate w device expected).1.reason
        = "No meshtastic node info returned after retries" := by
  have hres : ∀ idx lr,
      (variantLoop w (normExpected expected) (devicesToTry device) idx lr).res = none :=
    fun idx lr => variantLoop_allNoNode w _ hcli (devicesToTry device) idx lr
  by_cases hc : comLike device
  · obtain ⟨hps, h0, h1⟩ := hser hc
    have hserial : serialRetryGo w 1 3 0 "" = ⟨true, "", 1, []⟩ := by
      simp [serialRetryGo, h1]
    simp [validate_candidate, hc, hps, h0, hserial, finishV, hres]
  · simp only [Bool.not_eq_true] at hc
    simp [validate_candidate, hc, finishV, hres]

/-- World whose every probe answer is non-empty JSON without node keys. -/
def w10 : VWorld := ⟨true, fun _ => none, fun _ => ⟨ "x", .jsonNoNode⟩⟩

/-- Claim C10, witness on the concrete address AA:BB. -/
theorem C10_no_node_key_witness :
    (validate_candidate w10 "AA:BB" none).1.ok = false
    ∧ (validate_candidate w10 "AA:BB" none).1.reason
        = "No meshtastic node info returned after retries" :=
  C10_no_node_key w10 "AA:BB" none
    (fun h => absurd h (by decide))
    (fun _n => ⟨(by decide : pyStrip "x" ≠ ""), rfl⟩)
